import Mathlib

/-!
Verification development for the EcoPredict-AI input pipeline.

Shallow embedding of:
  * `src/utils/preprocessor.py` — `preprocess_input` (LabelEncoder-based
    categorical encoding, numeric coercion, fixed column order) and
    `validate_input_data` (presence / numeric / range checks);
  * `src/simple_test.py` — the explicit-dictionary `preprocess_input`;
  * `src/app.py` — the impact-level thresholds on the predicted scalar.

Machine floats are modelled as exact rationals extended with the IEEE
special values NaN and ±inf; the validation code only compares values, so
comparison semantics (every comparison with NaN is false) captures all the
behaviour the claims touch.
-/

set_option autoImplicit false

namespace EcoPredict

/-- A Python float value: a finite rational, NaN, or a signed infinity. -/
inductive PyFloat where
  | num (q : ℚ)
  | nan
  | inf
  | ninf
deriving DecidableEq, Repr

/-- IEEE-style strict less-than: any comparison involving NaN is false. -/
def PyFloat.lt : PyFloat → PyFloat → Bool
  | .nan, _ => false
  | _, .nan => false
  | .ninf, .ninf => false
  | .ninf, _ => true
  | _, .ninf => false
  | .inf, _ => false
  | _, .inf => true
  | .num a, .num b => decide (a < b)

/-- IEEE-style less-or-equal: any comparison involving NaN is false. -/
def PyFloat.le : PyFloat → PyFloat → Bool
  | .nan, _ => false
  | _, .nan => false
  | .ninf, _ => true
  | _, .inf => true
  | .inf, _ => false
  | _, .ninf => false
  | .num a, .num b => decide (a ≤ b)

/-- A value held in an input-record cell: a string, a float, or Python's
`None` (modelled as `null`). -/
inductive PyVal where
  | str (s : String)
  | float (f : PyFloat)
  | null
deriving DecidableEq, Repr

/-- Drop leading and trailing whitespace characters (Python `float` strips
whitespace from string arguments). -/
def trimChars (cs : List Char) : List Char :=
  ((cs.dropWhile Char.isWhitespace).reverse.dropWhile Char.isWhitespace).reverse

/-- Split a character list at the first occurrence of `c`; returns the part
before it and, when `c` occurs, the part after it. -/
def splitOnce (c : Char) : List Char → List Char × Option (List Char)
  | [] => ([], none)
  | x :: t =>
    if x = c then ([], some t)
    else
      let p := splitOnce c t
      (x :: p.1, p.2)

/-- Numeric value of a digit string (caller checks the digits). -/
def digitsVal (cs : List Char) : ℕ :=
  cs.foldl (fun a c => a * 10 + (c.toNat - 48)) 0

/-- Parse the mantissa of a decimal literal: digits with an optional single
decimal point, at least one digit overall. -/
def parseMantissa (cs : List Char) : Option ℚ :=
  let p := splitOnce '.' cs
  match p.2 with
  | none =>
    if cs ≠ [] ∧ cs.all Char.isDigit then some (digitsVal cs) else none
  | some fp =>
    if p.1.all Char.isDigit ∧ fp.all Char.isDigit ∧ (p.1 ≠ [] ∨ fp ≠ []) then
      some ((digitsVal p.1 : ℚ) + (digitsVal fp : ℚ) / (10 : ℚ) ^ fp.length)
    else none

/-- Parse an optionally signed exponent (the part after `e`). -/
def parseExponent (cs : List Char) : Option ℤ :=
  let p : Bool × List Char :=
    match cs with
    | '+' :: t => (false, t)
    | '-' :: t => (true, t)
    | t => (false, t)
  if p.2 ≠ [] ∧ p.2.all Char.isDigit then
    some (if p.1 then -(digitsVal p.2 : ℤ) else (digitsVal p.2 : ℤ))
  else none

/-- Python `float(s)` on a string: optional sign, then `nan` / `inf` /
`infinity` (case-insensitive) or a decimal literal with optional exponent.
(Digit-group underscores are not modelled; no claim touches them.) -/
def parseFloat? (s : String) : Option PyFloat :=
  let cs := (trimChars s.toList).map Char.toLower
  let p : Bool × List Char :=
    match cs with
    | '+' :: t => (false, t)
    | '-' :: t => (true, t)
    | t => (false, t)
  if p.2 = ['n', 'a', 'n'] then some PyFloat.nan
  else if p.2 = ['i', 'n', 'f'] ∨ p.2 = ['i', 'n', 'f', 'i', 'n', 'i', 't', 'y'] then
    some (if p.1 then PyFloat.ninf else PyFloat.inf)
  else
    let q := splitOnce 'e' p.2
    match parseMantissa q.1 with
    | none => none
    | some m =>
      match q.2 with
      | none => some (PyFloat.num (if p.1 then -m else m))
      | some es =>
        match parseExponent es with
        | none => none
        | some e => some (PyFloat.num ((if p.1 then -m else m) * (10 : ℚ) ^ e))

/-- Python `float(v)` on a record cell: floats pass through, strings are
parsed, `None` raises `TypeError` (modelled as `none`). -/
def pyFloat? : PyVal → Option PyFloat
  | .float f => some f
  | .str s => parseFloat? s
  | .null => none

/-! ### The input record

A single-row input dataframe / input dict, restricted to the ten column
names the pipeline reads. A field of `none` means the column / key is
absent; `some v` means it is present with cell value `v` (which may itself
be Python `None`, i.e. `PyVal.null`). -/

/-- One input record with the ten columns of the pipeline. -/
structure Row where
  substance : Option PyVal
  unit : Option PyVal
  supplyFactor : Option PyVal
  margin : Option PyVal
  dqReliability : Option PyVal
  dqTemporal : Option PyVal
  dqGeographical : Option PyVal
  dqTechnological : Option PyVal
  dqDataCollection : Option PyVal
  source : Option PyVal
deriving DecidableEq, Repr

/-! ### utils/preprocessor.py — preprocess_input -/

/-- `expected_categories` for the `Substance` column. -/
def substanceCats : List String :=
  ["carbon dioxide", "methane", "nitrous oxide", "other GHGs"]

/-- `expected_categories` for the `Unit` column. -/
def unitCats : List String :=
  ["kg/2018 USD, purchaser price", "kg CO2e/2018 USD, purchaser price"]

/-- `expected_categories` for the `Source` column. -/
def sourceCats : List String :=
  ["Commodity", "Industry"]

/-- Lexicographic comparison of character lists by code point, the order
numpy and Python use on strings (a proper prefix sorts first). -/
def charListLe : List Char → List Char → Bool
  | [], _ => true
  | _ :: _, [] => false
  | a :: as, b :: bs =>
    if a.toNat < b.toNat then true
    else if b.toNat < a.toNat then false
    else charListLe as bs

/-- Code-point order on strings. -/
def strLe (a b : String) : Bool :=
  charListLe a.toList b.toList

/-- Insert a string into an already sorted list (code-point order, as
Python compares strings). -/
def insertSorted (s : String) : List String → List String
  | [] => [s]
  | x :: t => if strLe s x then s :: x :: t else x :: insertSorted s t

/-- Sort a list of strings in ascending code-point order. -/
def sortStrings (l : List String) : List String :=
  l.foldr insertSorted []

/-- Remove adjacent duplicates from a sorted list. -/
def dedupSorted : List String → List String
  | [] => []
  | [x] => [x]
  | x :: y :: t => if x = y then dedupSorted (y :: t) else x :: dedupSorted (y :: t)

/-- `sklearn.LabelEncoder.fit(cats).classes_`: the sorted unique category
values (`numpy.unique` sorts). -/
def labelEncoderClasses (cats : List String) : List String :=
  dedupSorted (sortStrings cats)

/-- The encoding step of `preprocess_input` for one categorical cell:
`df[col].apply(lambda x: x if x in expected_categories else
expected_categories[0])` followed by `le.transform`, which maps a category
to its index in the sorted class list. -/
def encodeCat (cats : List String) (v : PyVal) : ℕ :=
  let s : String :=
    match v with
    | .str s => if s ∈ cats then s else cats.headD ""
    | _ => cats.headD ""
  (labelEncoderClasses cats).indexOf s

/-- `pd.to_numeric(v, errors='coerce')`: floats pass through, parseable
strings are parsed, everything else becomes NaN. -/
def toNumericCoerce : PyVal → PyFloat
  | .float f => f
  | .str s => (parseFloat? s).getD PyFloat.nan
  | .null => PyFloat.nan

/-- `.fillna(0.0)` on one cell. -/
def fillna0 : PyFloat → PyFloat
  | .nan => PyFloat.num 0
  | f => f

/-- A record after the missing-column fill step: every column present. -/
structure FilledRow where
  substance : PyVal
  unit : PyVal
  supplyFactor : PyVal
  margin : PyVal
  dqReliability : PyVal
  dqTemporal : PyVal
  dqGeographical : PyVal
  dqTechnological : PyVal
  dqDataCollection : PyVal
  source : PyVal
deriving DecidableEq, Repr

/-- The missing-column step of `preprocess_input`: a missing categorical
column is added with value `'Unknown'`, a missing numeric column with
`0.0`. -/
def fillMissing (r : Row) : FilledRow where
  substance := r.substance.getD (PyVal.str "Unknown")
  unit := r.unit.getD (PyVal.str "Unknown")
  supplyFactor := r.supplyFactor.getD (PyVal.float (PyFloat.num 0))
  margin := r.margin.getD (PyVal.float (PyFloat.num 0))
  dqReliability := r.dqReliability.getD (PyVal.float (PyFloat.num 0))
  dqTemporal := r.dqTemporal.getD (PyVal.float (PyFloat.num 0))
  dqGeographical := r.dqGeographical.getD (PyVal.float (PyFloat.num 0))
  dqTechnological := r.dqTechnological.getD (PyVal.float (PyFloat.num 0))
  dqDataCollection := r.dqDataCollection.getD (PyVal.float (PyFloat.num 0))
  source := r.source.getD (PyVal.float (PyFloat.num 0))

/-- `utils/preprocessor.py::preprocess_input` on a single-row dataframe:
fill missing columns, label-encode `Substance`/`Unit`/`Source`, coerce the
seven numeric columns with `to_numeric(errors='coerce').fillna(0.0)`, and
emit the row in the fixed `expected_columns` order. -/
def preprocess_input (input_df : Row) : List PyFloat :=
  let df := fillMissing input_df
  [ PyFloat.num (encodeCat substanceCats df.substance),
    PyFloat.num (encodeCat unitCats df.unit),
    fillna0 (toNumericCoerce df.supplyFactor),
    fillna0 (toNumericCoerce df.margin),
    fillna0 (toNumericCoerce df.dqReliability),
    fillna0 (toNumericCoerce df.dqTemporal),
    fillna0 (toNumericCoerce df.dqGeographical),
    fillna0 (toNumericCoerce df.dqTechnological),
    fillna0 (toNumericCoerce df.dqDataCollection),
    PyFloat.num (encodeCat sourceCats df.source) ]

/-- The call-level view of `preprocess_input`: the function works on
`df = input_df.copy()` and returns the new dataframe, so a call yields the
feature vector together with the caller's record as it stands after the
call. -/
def preprocess_input_call (input_df : Row) : List PyFloat × Row :=
  let df := input_df
  (preprocess_input df, input_df)

/-! ### utils/preprocessor.py — validate_input_data -/

/-- The `required_fields` list: column name paired with the dict lookup of
that key. -/
def requiredFields : List (String × (Row → Option PyVal)) :=
  [ ("Substance", Row.substance),
    ("Unit", Row.unit),
    ("Supply Chain Emission Factors without Margins", Row.supplyFactor),
    ("Margins of Supply Chain Emission Factors", Row.margin),
    ("Source", Row.source) ]

/-- The `numeric_fields` list. -/
def numericFields : List (String × (Row → Option PyVal)) :=
  [ ("Supply Chain Emission Factors without Margins", Row.supplyFactor),
    ("Margins of Supply Chain Emission Factors", Row.margin) ]

/-- The `dq_fields` list. -/
def dqFields : List (String × (Row → Option PyVal)) :=
  [ ("DQ ReliabilityScore of Factors without Margins", Row.dqReliability),
    ("DQ TemporalCorrelation of Factors without Margins", Row.dqTemporal),
    ("DQ GeographicalCorrelation of Factors without Margins", Row.dqGeographical),
    ("DQ TechnologicalCorrelation of Factors without Margins", Row.dqTechnological),
    ("DQ DataCollection of Factors without Margins", Row.dqDataCollection) ]

/-- The required-field loop of `validate_input_data`: first missing or
`None` field produces its error message. -/
def checkRequired (r : Row) : List (String × (Row → Option PyVal)) → Option String
  | [] => none
  | f :: rest =>
    match f.2 r with
    | none => some ("Missing required field: " ++ f.1)
    | some PyVal.null => some ("Field cannot be None: " ++ f.1)
    | some _ => checkRequired r rest

/-- The numeric-field loop of `validate_input_data`: a present field must
parse with `float` and must not be `< 0`. -/
def checkNumeric (r : Row) : List (String × (Row → Option PyVal)) → Option String
  | [] => none
  | f :: rest =>
    match f.2 r with
    | none => checkNumeric r rest
    | some v =>
      match pyFloat? v with
      | none => some ("Field must be numeric: " ++ f.1)
      | some val =>
        if PyFloat.lt val (PyFloat.num 0) then
          some ("Field must be non-negative: " ++ f.1)
        else checkNumeric r rest

/-- The data-quality loop of `validate_input_data`: a present field must
parse with `float` and satisfy `0.0 <= val <= 1.0`. -/
def checkDQ (r : Row) : List (String × (Row → Option PyVal)) → Option String
  | [] => none
  | f :: rest =>
    match f.2 r with
    | none => checkDQ r rest
    | some v =>
      match pyFloat? v with
      | none => some ("DQ field must be numeric: " ++ f.1)
      | some val =>
        if !(PyFloat.le (PyFloat.num 0) val && PyFloat.le val (PyFloat.num 1)) then
          some ("DQ field must be between 0 and 1: " ++ f.1)
        else checkDQ r rest

/-- `utils/preprocessor.py::validate_input_data`: returns
`(True, "Valid")` or `(False, message)` for the first violation found, in
the order required-presence, numeric type/sign, data-quality range. -/
def validate_input_data (r : Row) : Bool × String :=
  match checkRequired r requiredFields with
  | some msg => (false, msg)
  | none =>
    match checkNumeric r numericFields with
    | some msg => (false, msg)
    | none =>
      match checkDQ r dqFields with
      | some msg => (false, msg)
      | none => (true, "Valid")

/-! ### simple_test.py — the explicit-dictionary preprocess_input -/

namespace SimpleTest

/-- `substance_map` of `simple_test.py`. -/
def substance_map : List (String × ℕ) :=
  [("carbon dioxide", 0), ("methane", 1), ("nitrous oxide", 2), ("other GHGs", 3)]

/-- `unit_map` of `simple_test.py`. -/
def unit_map : List (String × ℕ) :=
  [("kg/2018 USD, purchaser price", 0), ("kg CO2e/2018 USD, purchaser price", 1)]

/-- `source_map` of `simple_test.py`. -/
def source_map : List (String × ℕ) :=
  [("Commodity", 0), ("Industry", 1)]

/-- `pandas.Series.map(dict)` on one cell: a value found in the dict maps
to its code, any other value becomes NaN. -/
def mapCat (m : List (String × ℕ)) : PyVal → PyFloat
  | .str s =>
    match m.lookup s with
    | some c => PyFloat.num c
    | none => PyFloat.nan
  | _ => PyFloat.nan

/-- `simple_test.py::preprocess_input` on a single-row dataframe: map the
three categorical columns through the dictionaries, leave the numeric
cells untouched, and select `expected_columns`; a missing column raises
`KeyError` (modelled as `none`). -/
def preprocess_input (input_df : Row) : Option (List PyVal) := do
  let s ← input_df.substance
  let u ← input_df.unit
  let sf ← input_df.supplyFactor
  let mg ← input_df.margin
  let d1 ← input_df.dqReliability
  let d2 ← input_df.dqTemporal
  let d3 ← input_df.dqGeographical
  let d4 ← input_df.dqTechnological
  let d5 ← input_df.dqDataCollection
  let so ← input_df.source
  pure
    [ PyVal.float (mapCat substance_map s),
      PyVal.float (mapCat unit_map u),
      sf, mg, d1, d2, d3, d4, d5,
      PyVal.float (mapCat source_map so) ]

end SimpleTest

/-! ### app.py — the impact-level label -/

/-- `src/app.py` lines 1164–1170: the fixed thresholds that derive the
impact label from the predicted scalar. -/
def impact_level (prediction_value : ℚ) : String :=
  if prediction_value > 0.1 then "High"
  else if prediction_value > 0.05 then "Medium"
  else "Low"

/-! ### Concrete records and spec-side predicates -/

/-- The `input_data` record of `simple_test.py` (end-to-end scenario 1). -/
def scenario1Row : Row where
  substance := some (PyVal.str "carbon dioxide")
  unit := some (PyVal.str "kg/2018 USD, purchaser price")
  supplyFactor := some (PyVal.float (PyFloat.num (mkRat 1 10)))
  margin := some (PyVal.float (PyFloat.num (mkRat 1 100)))
  dqReliability := some (PyVal.float (PyFloat.num (mkRat 1 2)))
  dqTemporal := some (PyVal.float (PyFloat.num (mkRat 1 2)))
  dqGeographical := some (PyVal.float (PyFloat.num (mkRat 1 2)))
  dqTechnological := some (PyVal.float (PyFloat.num (mkRat 1 2)))
  dqDataCollection := some (PyVal.float (PyFloat.num (mkRat 1 2)))
  source := some (PyVal.str "Industry")

/-- A fully populated record with string categoricals and finite-rational
numeric cells, as a single-row dataframe built from a dict. -/
def mkRow (s u so : String) (q1 q2 d1 d2 d3 d4 d5 : ℚ) : Row where
  substance := some (PyVal.str s)
  unit := some (PyVal.str u)
  supplyFactor := some (PyVal.float (PyFloat.num q1))
  margin := some (PyVal.float (PyFloat.num q2))
  dqReliability := some (PyVal.float (PyFloat.num d1))
  dqTemporal := some (PyVal.float (PyFloat.num d2))
  dqGeographical := some (PyVal.float (PyFloat.num d3))
  dqTechnological := some (PyVal.float (PyFloat.num d4))
  dqDataCollection := some (PyVal.float (PyFloat.num d5))
  source := some (PyVal.str so)

/-- Spec-side predicate, from the spec's words only: the cell parses as a
non-negative real number. Used to state claims about validation, not as
part of the embedding. -/
def parsesAsNonnegReal (v : PyVal) : Bool :=
  match pyFloat? v with
  | some (PyFloat.num q) => decide (0 ≤ q)
  | _ => false

/-- Spec-side predicate, from the spec's words only: the cell parses to a
real number in the closed interval `[0, 1]`. -/
def parsesToUnitInterval (v : PyVal) : Bool :=
  match pyFloat? v with
  | some (PyFloat.num q) => decide (0 ≤ q ∧ q ≤ 1)
  | _ => false

/-! ### Helper lemmas about the validator -/

/-- The required-field loop succeeds exactly when every listed key is
present with a non-`None` value. -/
theorem checkRequired_eq_none_iff (r : Row) (l : List (String × (Row → Option PyVal))) :
    checkRequired r l = none ↔ ∀ f ∈ l, ∃ v, f.2 r = some v ∧ v ≠ PyVal.null := by
  induction l with
  | nil => simp [checkRequired]
  | cons f rest ih =>
    cases h : f.2 r with
    | none => simp [checkRequired, h]
    | some v => cases v <;> simp [checkRequired, h, ih]

/-- The numeric loop succeeds exactly when every listed key that is
present parses with `float` to a value the `< 0` check does not reject. -/
theorem checkNumeric_eq_none_iff (r : Row) (l : List (String × (Row → Option PyVal))) :
    checkNumeric r l = none ↔
      ∀ f ∈ l, ∀ v, f.2 r = some v →
        ∃ val, pyFloat? v = some val ∧ PyFloat.lt val (PyFloat.num 0) = false := by
  induction l with
  | nil => simp [checkNumeric]
  | cons f rest ih =>
    cases h : f.2 r with
    | none => simp [checkNumeric, h, ih]
    | some v =>
      cases hp : pyFloat? v with
      | none => simp [checkNumeric, h, hp]
      | some val =>
        cases hlt : PyFloat.lt val (PyFloat.num 0) <;>
          simp [checkNumeric, h, hp, hlt, ih]

/-- The data-quality loop succeeds exactly when every listed key that is
present parses with `float` to a value satisfying `0.0 <= val <= 1.0`. -/
theorem checkDQ_eq_none_iff (r : Row) (l : List (String × (Row → Option PyVal))) :
    checkDQ r l = none ↔
      ∀ f ∈ l, ∀ v, f.2 r = some v →
        ∃ val, pyFloat? v = some val ∧
          (PyFloat.le (PyFloat.num 0) val && PyFloat.le val (PyFloat.num 1)) = true := by
  induction l with
  | nil => simp [checkDQ]
  | cons f rest ih =>
    cases h : f.2 r with
    | none => simp [checkDQ, h, ih]
    | some v =>
      cases hp : pyFloat? v with
      | none => simp [checkDQ, h, hp]
      | some val =>
        cases hle : (PyFloat.le (PyFloat.num 0) val && PyFloat.le val (PyFloat.num 1)) with
        | false =>
          simp [checkDQ, h, hp, hle]
          intro h1 h2
          rw [h1, h2] at hle
          simp at hle
        | true =>
          simp [checkDQ, h, hp, hle, ih]
          exact fun _ => by simpa using hle

/-- `validate_input_data` accepts exactly when all three check loops find
no violation. -/
theorem validate_true_iff (r : Row) :
    (validate_input_data r).1 = true ↔
      checkRequired r requiredFields = none ∧
      checkNumeric r numericFields = none ∧
      checkDQ r dqFields = none := by
  unfold validate_input_data
  rcases h1 : checkRequired r requiredFields with _ | m1
  · rcases h2 : checkNumeric r numericFields with _ | m2
    · rcases h3 : checkDQ r dqFields with _ | m3 <;> simp
    · simp
  · simp

/-- The float range check of the data-quality loop coincides with the
spec's "parses to a number in `[0, 1]`". -/
theorem dq_range_iff_unitInterval (v : PyVal) :
    (∃ val, pyFloat? v = some val ∧
        (PyFloat.le (PyFloat.num 0) val && PyFloat.le val (PyFloat.num 1)) = true) ↔
      parsesToUnitInterval v = true := by
  cases hv : pyFloat? v with
  | none => simp [parsesToUnitInterval, hv]
  | some val => cases val <;> simp [parsesToUnitInterval, hv, PyFloat.le]

/-- `fillna(0.0)` never leaves a NaN cell. -/
theorem fillna0_ne_nan (f : PyFloat) : ¬ fillna0 f = PyFloat.nan := by
  cases f <;> simp [fillna0]

/-! ### Claim C1 -/

/-- Claim C1, as stated, is false: on the scenario-1 record,
`preprocess_input` of `utils/preprocessor.py` does not produce the feature
vector `[0, 0, 0.1, 0.01, 0.5, 0.5, 0.5, 0.5, 0.5, 1]`, because the
LabelEncoder sorts the unit vocabulary and the unit code comes out 1. -/
theorem C1_counterexample :
    preprocess_input scenario1Row ≠
      [ PyFloat.num 0, PyFloat.num 0, PyFloat.num (mkRat 1 10), PyFloat.num (mkRat 1 100),
        PyFloat.num (mkRat 1 2), PyFloat.num (mkRat 1 2), PyFloat.num (mkRat 1 2),
        PyFloat.num (mkRat 1 2), PyFloat.num (mkRat 1 2), PyFloat.num 1 ] := by
  decide

/-- Claim C1 amended: on the scenario-1 record, `preprocess_input` of
`utils/preprocessor.py` produces `[0, 1, 0.1, 0.01, 0.5, 0.5, 0.5, 0.5,
0.5, 1]` — the unit `"kg/2018 USD, purchaser price"` encodes to 1, not 0,
because `LabelEncoder.fit` sorts the two unit strings and
`"kg CO2e/2018 USD, purchaser price"` sorts first. -/
theorem C1_amended_vector :
    preprocess_input scenario1Row =
      [ PyFloat.num 0, PyFloat.num 1, PyFloat.num (mkRat 1 10), PyFloat.num (mkRat 1 100),
        PyFloat.num (mkRat 1 2), PyFloat.num (mkRat 1 2), PyFloat.num (mkRat 1 2),
        PyFloat.num (mkRat 1 2), PyFloat.num (mkRat 1 2), PyFloat.num 1 ] := by
  decide

/-! ### Claim C2 -/

/-- Claim C2, as stated, is false: in `utils/preprocessor.py`, the unit
`"kg/2018 USD, purchaser price"` encodes to 1, not to its documented
code 0. -/
theorem C2_counterexample :
    encodeCat unitCats (PyVal.str "kg/2018 USD, purchaser price") ≠ 0 := by
  decide

/-- Claim C2 amended: in `utils/preprocessor.py`, every substance and
source vocabulary value encodes to its documented code, but the two unit
codes are swapped (`"kg/2018 USD, purchaser price"` → 1,
`"kg CO2e/2018 USD, purchaser price"` → 0); the dictionary encoder of
`simple_test.py` matches the documented table on all three fields. -/
theorem C2_amended_codes :
    (encodeCat substanceCats (PyVal.str "carbon dioxide") = 0 ∧
     encodeCat substanceCats (PyVal.str "methane") = 1 ∧
     encodeCat substanceCats (PyVal.str "nitrous oxide") = 2 ∧
     encodeCat substanceCats (PyVal.str "other GHGs") = 3) ∧
    (encodeCat sourceCats (PyVal.str "Commodity") = 0 ∧
     encodeCat sourceCats (PyVal.str "Industry") = 1) ∧
    (encodeCat unitCats (PyVal.str "kg/2018 USD, purchaser price") = 1 ∧
     encodeCat unitCats (PyVal.str "kg CO2e/2018 USD, purchaser price") = 0) ∧
    (SimpleTest.mapCat SimpleTest.substance_map (PyVal.str "carbon dioxide") = PyFloat.num 0 ∧
     SimpleTest.mapCat SimpleTest.substance_map (PyVal.str "methane") = PyFloat.num 1 ∧
     SimpleTest.mapCat SimpleTest.substance_map (PyVal.str "nitrous oxide") = PyFloat.num 2 ∧
     SimpleTest.mapCat SimpleTest.substance_map (PyVal.str "other GHGs") = PyFloat.num 3 ∧
     SimpleTest.mapCat SimpleTest.unit_map (PyVal.str "kg/2018 USD, purchaser price") = PyFloat.num 0 ∧
     SimpleTest.mapCat SimpleTest.unit_map (PyVal.str "kg CO2e/2018 USD, purchaser price") = PyFloat.num 1 ∧
     SimpleTest.mapCat SimpleTest.source_map (PyVal.str "Commodity") = PyFloat.num 0 ∧
     SimpleTest.mapCat SimpleTest.source_map (PyVal.str "Industry") = PyFloat.num 1) := by
  decide

/-! ### Claim C3 -/

/-- Claim C3, as stated, is false: an out-of-vocabulary unit value encodes
to 1, not 0, because the fallback substitutes the first vocabulary entry
`"kg/2018 USD, purchaser price"`, whose LabelEncoder code is 1. -/
theorem C3_counterexample :
    encodeCat unitCats (PyVal.str "xenon") ≠ 0 := by
  decide

/-- Claim C3 amended: encoding never fails on out-of-vocabulary values;
an unseen substance or source encodes to 0, but an unseen unit encodes to
1 (the code of the substituted first vocabulary entry); in particular a
record with substance `"xenon"` encodes substance to 0, the same code as
`"carbon dioxide"`. -/
theorem C3_amended (s : String) :
    (s ∉ substanceCats → encodeCat substanceCats (PyVal.str s) = 0) ∧
    (s ∉ sourceCats → encodeCat sourceCats (PyVal.str s) = 0) ∧
    (s ∉ unitCats → encodeCat unitCats (PyVal.str s) = 1) ∧
    encodeCat substanceCats (PyVal.str "xenon") =
      encodeCat substanceCats (PyVal.str "carbon dioxide") := by
  refine ⟨fun h => ?_, fun h => ?_, fun h => ?_, by decide⟩
  · simp only [encodeCat]
    rw [if_neg h]
    decide
  · simp only [encodeCat]
    rw [if_neg h]
    decide
  · simp only [encodeCat]
    rw [if_neg h]
    decide

/-- Witness for the amended claim C3 at the concrete unseen value
`"xenon"`. -/
theorem C3_amended_witness :
    ("xenon" ∉ substanceCats ∧ encodeCat substanceCats (PyVal.str "xenon") = 0) ∧
    ("xenon" ∉ sourceCats ∧ encodeCat sourceCats (PyVal.str "xenon") = 0) ∧
    ("xenon" ∉ unitCats ∧ encodeCat unitCats (PyVal.str "xenon") = 1) :=
  ⟨⟨by decide, (C3_amended "xenon").1 (by decide)⟩,
   ⟨by decide, (C3_amended "xenon").2.1 (by decide)⟩,
   ⟨by decide, (C3_amended "xenon").2.2.1 (by decide)⟩⟩

/-! ### Claim C4 -/

/-- Claim C4, as stated, is false: a record whose margin is the float NaN
is accepted by `validate_input_data` (the `val < 0` check is false for
NaN), yet NaN does not parse as a non-negative real number. -/
theorem C4_counterexample :
    ({ scenario1Row with margin := some (PyVal.float PyFloat.nan) } : Row).margin =
      some (PyVal.float PyFloat.nan) ∧
    (validate_input_data
        { scenario1Row with margin := some (PyVal.float PyFloat.nan) }).1 = true ∧
    parsesAsNonnegReal (PyVal.float PyFloat.nan) = false :=
  ⟨rfl, by decide, by decide⟩

/-- Claim C4 amended: for every record with all five required fields
present and non-null, validation succeeds iff `supply_factor` and
`margin` each parse with `float` to a value that the `val < 0` check does
not reject (so NaN and +inf are accepted), and every data-quality field
that is present parses to a real number in the closed interval [0, 1];
an absent data-quality field is not an error. -/
theorem C4_amended (r : Row)
    (hreq : ∀ f ∈ requiredFields, ∃ v, f.2 r = some v ∧ v ≠ PyVal.null) :
    (validate_input_data r).1 = true ↔
      ((∀ f ∈ numericFields, ∀ v, f.2 r = some v →
          ∃ val, pyFloat? v = some val ∧ PyFloat.lt val (PyFloat.num 0) = false) ∧
       (∀ f ∈ dqFields, ∀ v, f.2 r = some v → parsesToUnitInterval v = true)) := by
  rw [validate_true_iff, checkRequired_eq_none_iff, checkNumeric_eq_none_iff,
    checkDQ_eq_none_iff]
  constructor
  · rintro ⟨-, hn, hdq⟩
    exact ⟨hn, fun f hf v hv => (dq_range_iff_unitInterval v).mp (hdq f hf v hv)⟩
  · rintro ⟨hn, hdq⟩
    exact ⟨hreq, hn, fun f hf v hv => (dq_range_iff_unitInterval v).mpr (hdq f hf v hv)⟩

/-- Witness for the amended claim C4 at the scenario-1 record. -/
theorem C4_amended_witness :
    (validate_input_data scenario1Row).1 = true ↔
      ((∀ f ∈ numericFields, ∀ v, f.2 scenario1Row = some v →
          ∃ val, pyFloat? v = some val ∧ PyFloat.lt val (PyFloat.num 0) = false) ∧
       (∀ f ∈ dqFields, ∀ v, f.2 scenario1Row = some v →
          parsesToUnitInterval v = true)) :=
  C4_amended scenario1Row (by
    intro f hf
    simp only [requiredFields, List.mem_cons, List.not_mem_nil, or_false] at hf
    rcases hf with rfl | rfl | rfl | rfl | rfl <;> exact ⟨_, rfl, by decide⟩)

/-! ### Claim C5 -/

/-- Claim C5: `validate_input_data` fails whenever a required key is
absent or `None`; it reports the first violation in the fixed check order
(presence first, regardless of later violations), and on a record missing
only `Source` it returns the missing-field error referencing "Source". -/
theorem C5_validator_order (r : Row) :
    ((r.substance = none ∨ r.substance = some PyVal.null ∨
      r.unit = none ∨ r.unit = some PyVal.null ∨
      r.supplyFactor = none ∨ r.supplyFactor = some PyVal.null ∨
      r.margin = none ∨ r.margin = some PyVal.null ∨
      r.source = none ∨ r.source = some PyVal.null) →
        (validate_input_data r).1 = false) ∧
    (r.substance = none →
      validate_input_data r = (false, "Missing required field: Substance")) ∧
    ((∃ v, r.substance = some v ∧ v ≠ PyVal.null) →
     (∃ v, r.unit = some v ∧ v ≠ PyVal.null) →
     (∃ v, r.supplyFactor = some v ∧ v ≠ PyVal.null) →
     (∃ v, r.margin = some v ∧ v ≠ PyVal.null) →
     r.source = none →
       validate_input_data r = (false, "Missing required field: Source")) := by
  refine ⟨fun hbad => ?_, fun hs => ?_, fun h1 h2 h3 h4 hsrc => ?_⟩
  · by_contra hcon
    rw [Bool.not_eq_false, validate_true_iff] at hcon
    obtain ⟨hreq, -, -⟩ := hcon
    rw [checkRequired_eq_none_iff] at hreq
    obtain ⟨v1, e1, n1⟩ :=
      hreq ("Substance", Row.substance) (by simp [requiredFields])
    obtain ⟨v2, e2, n2⟩ := hreq ("Unit", Row.unit) (by simp [requiredFields])
    obtain ⟨v3, e3, n3⟩ :=
      hreq ("Supply Chain Emission Factors without Margins", Row.supplyFactor)
        (by simp [requiredFields])
    obtain ⟨v4, e4, n4⟩ :=
      hreq ("Margins of Supply Chain Emission Factors", Row.margin)
        (by simp [requiredFields])
    obtain ⟨v5, e5, n5⟩ := hreq ("Source", Row.source) (by simp [requiredFields])
    rcases hbad with h | h | h | h | h | h | h | h | h | h <;> simp_all
  · simp [validate_input_data, checkRequired, requiredFields, hs]
  · obtain ⟨v1, e1, n1⟩ := h1
    obtain ⟨v2, e2, n2⟩ := h2
    obtain ⟨v3, e3, n3⟩ := h3
    obtain ⟨v4, e4, n4⟩ := h4
    cases v1 <;> cases v2 <;> cases v3 <;> cases v4 <;>
      simp_all [validate_input_data, checkRequired, requiredFields]

/-- Witness for claim C5: a record missing only `Source` gets the
missing-Source message, a record missing `Substance` gets the
missing-Substance message, and a `None`-valued `Unit` is rejected. -/
theorem C5_validator_witness :
    validate_input_data { scenario1Row with source := none } =
      (false, "Missing required field: Source") ∧
    validate_input_data { scenario1Row with substance := none } =
      (false, "Missing required field: Substance") ∧
    (validate_input_data { scenario1Row with unit := some PyVal.null }).1 = false :=
  ⟨(C5_validator_order _).2.2 ⟨_, rfl, by decide⟩ ⟨_, rfl, by decide⟩
      ⟨_, rfl, by decide⟩ ⟨_, rfl, by decide⟩ rfl,
   (C5_validator_order _).2.1 rfl,
   (C5_validator_order _).1 (Or.inr (Or.inr (Or.inr (Or.inl rfl))))⟩

/-! ### Claim C6 -/

/-- NaN never appears as the head constructor of `PyFloat.nan` on the
left of a `fillna(0.0)` result. -/
theorem nan_ne_fillna0 (f : PyFloat) : ¬ PyFloat.nan = fillna0 f := by
  cases f <;> simp [fillna0]

/-- Claim C6: for every input record, `preprocess_input` produces a
vector of exactly length 10 in the fixed column order (substance code
first, unit code second, source code last), every missing data-quality
column defaults to 0.0 at its position, and every entry is a numeric
float (never NaN). -/
theorem C6_feature_vector (r : Row) :
    (preprocess_input r).length = 10 ∧
    (preprocess_input r).get? 0 =
      some (PyFloat.num (encodeCat substanceCats (fillMissing r).substance)) ∧
    (preprocess_input r).get? 1 =
      some (PyFloat.num (encodeCat unitCats (fillMissing r).unit)) ∧
    (preprocess_input r).get? 9 =
      some (PyFloat.num (encodeCat sourceCats (fillMissing r).source)) ∧
    (r.dqReliability = none → (preprocess_input r).get? 4 = some (PyFloat.num 0)) ∧
    (r.dqTemporal = none → (preprocess_input r).get? 5 = some (PyFloat.num 0)) ∧
    (r.dqGeographical = none → (preprocess_input r).get? 6 = some (PyFloat.num 0)) ∧
    (r.dqTechnological = none → (preprocess_input r).get? 7 = some (PyFloat.num 0)) ∧
    (r.dqDataCollection = none → (preprocess_input r).get? 8 = some (PyFloat.num 0)) ∧
    (∀ i, (preprocess_input r).get? i ≠ some PyFloat.nan) := by
  refine ⟨rfl, rfl, rfl, rfl, fun h => ?_, fun h => ?_, fun h => ?_, fun h => ?_,
    fun h => ?_, fun i hcontra => ?_⟩
  · simp [preprocess_input, fillMissing, h, toNumericCoerce, fillna0]
  · simp [preprocess_input, fillMissing, h, toNumericCoerce, fillna0]
  · simp [preprocess_input, fillMissing, h, toNumericCoerce, fillna0]
  · simp [preprocess_input, fillMissing, h, toNumericCoerce, fillna0]
  · simp [preprocess_input, fillMissing, h, toNumericCoerce, fillna0]
  · have hmem : PyFloat.nan ∈ preprocess_input r := List.get?_mem hcontra
    simp [preprocess_input, nan_ne_fillna0] at hmem

/-- Witness for claim C6 at a record whose reliability column is
absent. -/
theorem C6_feature_vector_witness :
    (preprocess_input { scenario1Row with dqReliability := none }).length = 10 ∧
    ({ scenario1Row with dqReliability := none } : Row).dqReliability = none ∧
    (preprocess_input { scenario1Row with dqReliability := none }).get? 4 =
      some (PyFloat.num 0) :=
  ⟨(C6_feature_vector _).1, rfl, (C6_feature_vector _).2.2.2.2.1 rfl⟩

/-! ### Claim C7 -/

/-- Claim C7: the impact label of the predicted scalar is computed by the
fixed thresholds of `src/app.py`: strictly above 0.1 is "High", strictly
above 0.05 and at most 0.1 is "Medium", everything else is "Low". -/
theorem C7_impact_thresholds (p : ℚ) :
    (0.1 < p → impact_level p = "High") ∧
    (0.05 < p → p ≤ 0.1 → impact_level p = "Medium") ∧
    (p ≤ 0.05 → impact_level p = "Low") := by
  refine ⟨fun h => ?_, fun h1 h2 => ?_, fun h => ?_⟩
  · unfold impact_level
    rw [if_pos h]
  · unfold impact_level
    rw [if_neg (not_lt.mpr h2), if_pos h1]
  · unfold impact_level
    rw [if_neg (by linarith : ¬ ((0.1 : ℚ) < p)), if_neg (not_lt.mpr h)]

/-- Witness for claim C7 at the concrete predictions 0.2, 0.07 and
0.01. -/
theorem C7_impact_witness :
    ((0.1 : ℚ) < 0.2 ∧ impact_level 0.2 = "High") ∧
    ((0.05 : ℚ) < 0.07 ∧ (0.07 : ℚ) ≤ 0.1 ∧ impact_level 0.07 = "Medium") ∧
    ((0.01 : ℚ) ≤ 0.05 ∧ impact_level 0.01 = "Low") :=
  ⟨⟨by norm_num, (C7_impact_thresholds 0.2).1 (by norm_num)⟩,
   ⟨by norm_num, by norm_num,
    (C7_impact_thresholds 0.07).2.1 (by norm_num) (by norm_num)⟩,
   ⟨by norm_num, (C7_impact_thresholds 0.01).2.2 (by norm_num)⟩⟩

/-! ### Claim C8 -/

/-- Claim C8: `preprocess_input` is pure and idempotent at the call
level — a call leaves the caller's record unchanged (the function works
on a copy), and calling it again on the record after the first call
yields the identical feature vector. -/
theorem C8_pure_idempotent (r : Row) :
    (preprocess_input_call r).2 = r ∧
    (preprocess_input_call ((preprocess_input_call r).2)).1 =
      (preprocess_input_call r).1 :=
  ⟨rfl, rfl⟩

/-! ### Claim C9 -/

/-- Claim C9, as stated, is false: on the scenario-1 record (all
categoricals in the documented vocabularies, all numerics present) the
two implementations disagree — `simple_test.py` encodes the unit to 0
while `utils/preprocessor.py` encodes it to 1. -/
theorem C9_counterexample :
    SimpleTest.preprocess_input scenario1Row =
      some
        [ PyVal.float (PyFloat.num 0), PyVal.float (PyFloat.num 0),
          PyVal.float (PyFloat.num (mkRat 1 10)), PyVal.float (PyFloat.num (mkRat 1 100)),
          PyVal.float (PyFloat.num (mkRat 1 2)), PyVal.float (PyFloat.num (mkRat 1 2)),
          PyVal.float (PyFloat.num (mkRat 1 2)), PyVal.float (PyFloat.num (mkRat 1 2)),
          PyVal.float (PyFloat.num (mkRat 1 2)), PyVal.float (PyFloat.num 1) ] ∧
    (preprocess_input scenario1Row).map PyVal.float ≠
      [ PyVal.float (PyFloat.num 0), PyVal.float (PyFloat.num 0),
        PyVal.float (PyFloat.num (mkRat 1 10)), PyVal.float (PyFloat.num (mkRat 1 100)),
        PyVal.float (PyFloat.num (mkRat 1 2)), PyVal.float (PyFloat.num (mkRat 1 2)),
        PyVal.float (PyFloat.num (mkRat 1 2)), PyVal.float (PyFloat.num (mkRat 1 2)),
        PyVal.float (PyFloat.num (mkRat 1 2)), PyVal.float (PyFloat.num 1) ] :=
  ⟨rfl, by decide⟩

/-- Claim C9 amended: for every single-row record with in-vocabulary
categoricals and finite numeric cells, the two implementations produce
vectors that agree at every position except the unit code: substance and
source codes coincide, the seven numeric entries pass through unchanged
in both, and the two unit codes are complementary (they sum to 1, i.e.
they are always swapped). -/
theorem C9_amended (s u so : String) (q1 q2 d1 d2 d3 d4 d5 : ℚ)
    (hs : s ∈ substanceCats) (hu : u ∈ unitCats) (ho : so ∈ sourceCats) :
    preprocess_input (mkRow s u so q1 q2 d1 d2 d3 d4 d5) =
      [ PyFloat.num (encodeCat substanceCats (PyVal.str s)),
        PyFloat.num (encodeCat unitCats (PyVal.str u)),
        PyFloat.num q1, PyFloat.num q2, PyFloat.num d1, PyFloat.num d2,
        PyFloat.num d3, PyFloat.num d4, PyFloat.num d5,
        PyFloat.num (encodeCat sourceCats (PyVal.str so)) ] ∧
    SimpleTest.preprocess_input (mkRow s u so q1 q2 d1 d2 d3 d4 d5) =
      some
        [ PyVal.float (PyFloat.num ((SimpleTest.substance_map.lookup s).getD 0)),
          PyVal.float (PyFloat.num ((SimpleTest.unit_map.lookup u).getD 0)),
          PyVal.float (PyFloat.num q1), PyVal.float (PyFloat.num q2),
          PyVal.float (PyFloat.num d1), PyVal.float (PyFloat.num d2),
          PyVal.float (PyFloat.num d3), PyVal.float (PyFloat.num d4),
          PyVal.float (PyFloat.num d5),
          PyVal.float (PyFloat.num ((SimpleTest.source_map.lookup so).getD 0)) ] ∧
    (SimpleTest.substance_map.lookup s).getD 0 = encodeCat substanceCats (PyVal.str s) ∧
    (SimpleTest.source_map.lookup so).getD 0 = encodeCat sourceCats (PyVal.str so) ∧
    encodeCat unitCats (PyVal.str u) + (SimpleTest.unit_map.lookup u).getD 0 = 1 := by
  simp only [substanceCats, List.mem_cons, List.not_mem_nil, or_false] at hs
  simp only [unitCats, List.mem_cons, List.not_mem_nil, or_false] at hu
  simp only [sourceCats, List.mem_cons, List.not_mem_nil, or_false] at ho
  rcases hs with rfl | rfl | rfl | rfl <;> rcases hu with rfl | rfl <;>
    rcases ho with rfl | rfl <;>
      exact ⟨rfl, rfl, by decide, by decide, by decide⟩

/-- Witness for the amended claim C9 at the scenario-1 field values. -/
theorem C9_amended_witness :
    preprocess_input
        (mkRow "carbon dioxide" "kg/2018 USD, purchaser price" "Industry"
          (mkRat 1 10) (mkRat 1 100) (mkRat 1 2) (mkRat 1 2) (mkRat 1 2)
          (mkRat 1 2) (mkRat 1 2)) =
      [ PyFloat.num (encodeCat substanceCats (PyVal.str "carbon dioxide")),
        PyFloat.num (encodeCat unitCats (PyVal.str "kg/2018 USD, purchaser price")),
        PyFloat.num (mkRat 1 10), PyFloat.num (mkRat 1 100),
        PyFloat.num (mkRat 1 2), PyFloat.num (mkRat 1 2), PyFloat.num (mkRat 1 2),
        PyFloat.num (mkRat 1 2), PyFloat.num (mkRat 1 2),
        PyFloat.num (encodeCat sourceCats (PyVal.str "Industry")) ] ∧
    SimpleTest.preprocess_input
        (mkRow "carbon dioxide" "kg/2018 USD, purchaser price" "Industry"
          (mkRat 1 10) (mkRat 1 100) (mkRat 1 2) (mkRat 1 2) (mkRat 1 2)
          (mkRat 1 2) (mkRat 1 2)) =
      some
        [ PyVal.float (PyFloat.num
            ((SimpleTest.substance_map.lookup "carbon dioxide").getD 0)),
          PyVal.float (PyFloat.num
            ((SimpleTest.unit_map.lookup "kg/2018 USD, purchaser price").getD 0)),
          PyVal.float (PyFloat.num (mkRat 1 10)), PyVal.float (PyFloat.num (mkRat 1 100)),
          PyVal.float (PyFloat.num (mkRat 1 2)), PyVal.float (PyFloat.num (mkRat 1 2)),
          PyVal.float (PyFloat.num (mkRat 1 2)), PyVal.float (PyFloat.num (mkRat 1 2)),
          PyVal.float (PyFloat.num (mkRat 1 2)),
          PyVal.float (PyFloat.num ((SimpleTest.source_map.lookup "Industry").getD 0)) ] ∧
    (SimpleTest.substance_map.lookup "carbon dioxide").getD 0 =
      encodeCat substanceCats (PyVal.str "carbon dioxide") ∧
    (SimpleTest.source_map.lookup "Industry").getD 0 =
      encodeCat sourceCats (PyVal.str "Industry") ∧
    encodeCat unitCats (PyVal.str "kg/2018 USD, purchaser price") +
      (SimpleTest.unit_map.lookup "kg/2018 USD, purchaser price").getD 0 = 1 :=
  C9_amended "carbon dioxide" "kg/2018 USD, purchaser price" "Industry"
    (mkRat 1 10) (mkRat 1 100) (mkRat 1 2) (mkRat 1 2) (mkRat 1 2) (mkRat 1 2)
    (mkRat 1 2) (by decide) (by decide) (by decide)

/-! ### Claim C10 -/

/-- Claim C10: NaN passes validation for the required numeric fields
(the `val < 0` check is false for NaN) but fails the inclusive range
check for data-quality fields — a NaN reliability score is always
rejected, while a NaN supply factor or a margin given as the string
"nan" preserves acceptance. -/
theorem C10_nan_validation (r : Row) :
    ((validate_input_data r).1 = true →
      (validate_input_data
          { r with supplyFactor := some (PyVal.float PyFloat.nan) }).1 = true) ∧
    ((validate_input_data r).1 = true →
      (validate_input_data { r with margin := some (PyVal.str "nan") }).1 = true) ∧
    (validate_input_data
        { r with dqReliability := some (PyVal.float PyFloat.nan) }).1 = false := by
  refine ⟨fun h => ?_, fun h => ?_, ?_⟩
  · rw [validate_true_iff, checkRequired_eq_none_iff, checkNumeric_eq_none_iff,
      checkDQ_eq_none_iff] at h ⊢
    obtain ⟨hreq, hnum, hdq⟩ := h
    refine ⟨?_, ?_, ?_⟩
    · intro f hf
      simp only [requiredFields, List.mem_cons, List.not_mem_nil, or_false] at hf
      rcases hf with rfl | rfl | rfl | rfl | rfl
      · exact hreq ("Substance", Row.substance) (by simp [requiredFields])
      · exact hreq ("Unit", Row.unit) (by simp [requiredFields])
      · exact ⟨_, rfl, by decide⟩
      · exact hreq ("Margins of Supply Chain Emission Factors", Row.margin)
          (by simp [requiredFields])
      · exact hreq ("Source", Row.source) (by simp [requiredFields])
    · intro f hf
      simp only [numericFields, List.mem_cons, List.not_mem_nil, or_false] at hf
      rcases hf with rfl | rfl
      · exact fun v hv => by
          cases hv
          exact ⟨PyFloat.nan, rfl, rfl⟩
      · exact fun v hv =>
          hnum ("Margins of Supply Chain Emission Factors", Row.margin)
            (by simp [numericFields]) v hv
    · intro f hf
      simp only [dqFields, List.mem_cons, List.not_mem_nil, or_false] at hf
      rcases hf with rfl | rfl | rfl | rfl | rfl
      · exact fun v hv =>
          hdq ("DQ ReliabilityScore of Factors without Margins", Row.dqReliability)
            (by simp [dqFields]) v hv
      · exact fun v hv =>
          hdq ("DQ TemporalCorrelation of Factors without Margins", Row.dqTemporal)
            (by simp [dqFields]) v hv
      · exact fun v hv =>
          hdq ("DQ GeographicalCorrelation of Factors without Margins", Row.dqGeographical)
            (by simp [dqFields]) v hv
      · exact fun v hv =>
          hdq ("DQ TechnologicalCorrelation of Factors without Margins", Row.dqTechnological)
            (by simp [dqFields]) v hv
      · exact fun v hv =>
          hdq ("DQ DataCollection of Factors without Margins", Row.dqDataCollection)
            (by simp [dqFields]) v hv
  · rw [validate_true_iff, checkRequired_eq_none_iff, checkNumeric_eq_none_iff,
      checkDQ_eq_none_iff] at h ⊢
    obtain ⟨hreq, hnum, hdq⟩ := h
    refine ⟨?_, ?_, ?_⟩
    · intro f hf
      simp only [requiredFields, List.mem_cons, List.not_mem_nil, or_false] at hf
      rcases hf with rfl | rfl | rfl | rfl | rfl
      · exact hreq ("Substance", Row.substance) (by simp [requiredFields])
      · exact hreq ("Unit", Row.unit) (by simp [requiredFields])
      · exact hreq ("Supply Chain Emission Factors without Margins", Row.supplyFactor)
          (by simp [requiredFields])
      · exact ⟨_, rfl, by decide⟩
      · exact hreq ("Source", Row.source) (by simp [requiredFields])
    · intro f hf
      simp only [numericFields, List.mem_cons, List.not_mem_nil, or_false] at hf
      rcases hf with rfl | rfl
      · exact fun v hv =>
          hnum ("Supply Chain Emission Factors without Margins", Row.supplyFactor)
            (by simp [numericFields]) v hv
      · exact fun v hv => by
          cases hv
          exact ⟨PyFloat.nan, rfl, rfl⟩
    · intro f hf
      simp only [dqFields, List.mem_cons, List.not_mem_nil, or_false] at hf
      rcases hf with rfl | rfl | rfl | rfl | rfl
      · exact fun v hv =>
          hdq ("DQ ReliabilityScore of Factors without Margins", Row.dqReliability)
            (by simp [dqFields]) v hv
      · exact fun v hv =>
          hdq ("DQ TemporalCorrelation of Factors without Margins", Row.dqTemporal)
            (by simp [dqFields]) v hv
      · exact fun v hv =>
          hdq ("DQ GeographicalCorrelation of Factors without Margins", Row.dqGeographical)
            (by simp [dqFields]) v hv
      · exact fun v hv =>
          hdq ("DQ TechnologicalCorrelation of Factors without Margins", Row.dqTechnological)
            (by simp [dqFields]) v hv
      · exact fun v hv =>
          hdq ("DQ DataCollection of Factors without Margins", Row.dqDataCollection)
            (by simp [dqFields]) v hv
  · cases hb : (validate_input_data
        { r with dqReliability := some (PyVal.float PyFloat.nan) }).1 with
    | false => rfl
    | true =>
      exfalso
      obtain ⟨-, -, hdq⟩ := (validate_true_iff _).mp hb
      rw [checkDQ_eq_none_iff] at hdq
      obtain ⟨val, hval, hle⟩ :=
        hdq ("DQ ReliabilityScore of Factors without Margins", Row.dqReliability)
          (by simp [dqFields]) (PyVal.float PyFloat.nan) rfl
      simp only [pyFloat?, Option.some.injEq] at hval
      subst hval
      simp [PyFloat.le] at hle

/-- Witness for claim C10 at the scenario-1 record. -/
theorem C10_nan_witness :
    (validate_input_data
        { scenario1Row with supplyFactor := some (PyVal.float PyFloat.nan) }).1 = true ∧
    (validate_input_data
        { scenario1Row with margin := some (PyVal.str "nan") }).1 = true ∧
    (validate_input_data
        { scenario1Row with dqReliability := some (PyVal.float PyFloat.nan) }).1 = false :=
  ⟨(C10_nan_validation scenario1Row).1 (by decide),
   (C10_nan_validation scenario1Row).2.1 (by decide),
   (C10_nan_validation scenario1Row).2.2⟩

end EcoPredict
